import Mathlib

/-!
Shallow embedding of the file-operation scheduler in src/index.js
(classes FileHandler, WorkingStack, Order).

The JavaScript runtime is modelled as an explicit event-loop machine:
synchronous method bodies are Lean functions on a `Machine` state;
promise `.then` continuations go on a microtask queue; `setTimeout`
callbacks go on a timer queue (recording the delay argument that the
source passes, namely the field `this.timeout`); calls to the `fs`
collaborator put a job on an in-flight job queue whose completion
callback runs as a macrotask.  A schedule (list of choices of which
macrotask to run next) resolves the nondeterminism of timer firing
versus I/O completion; microtasks always drain before the next
macrotask, as in JavaScript.  The filesystem collaborator itself is
modelled as a finite map from path to content.

Order ids are `Math.random` strings in the source; the model draws them
from a counter (no claim depends on the randomness).  Promises are
identified by a counter as well; a settled promise is recorded in
`settled` and, per promise semantics, the first resolution wins.
-/

deriving instance DecidableEq for Except

namespace FileUtils

/-- Order (src/index.js lines 339-374): path, type, data and a unique id
fixed at construction. -/
structure Order where
  id : Nat
  path : String
  type : String
  data : String
deriving Repr, DecidableEq

/-- The validity check in the Order constructor (line 355): the type must
be one of read, write, delete, create, append. -/
def validType (t : String) : Bool :=
  t == "read" || t == "write" || t == "delete" || t == "create" || t == "append"

/-- The Order constructor (lines 351-361): generates an id, throws unless
the type is valid, otherwise stores path, type and data.  A throw is an
`Except.error` carrying the message of line 356. -/
def Order.make (path ty data : String) (id : Nat) : Except String Order :=
  if validType ty then Except.ok { id := id, path := path, type := ty, data := data }
  else Except.error "type must be read, write, delete, create or append"

/-- `stack.splice(stack.indexOf(order), 1)` after `stack.find` (lines
261-263): remove the first element satisfying the predicate. -/
def removeFirst (p : Order → Bool) : List Order → List Order
  | [] => []
  | o :: rest => if p o then rest else o :: removeFirst p rest

/-- A listener registered by `emitter.on('read', ...)` in `read` (lines
56-60): it filters events by the captured order id and resolves the
captured promise. -/
structure ReadListener where
  orderId : Nat
  promiseId : Nat
deriving Repr, DecidableEq

/-- An fs-collaborator call in flight: issued (the callback-style call of
lines 185, 199, 213, 227, 241 has returned) but its completion callback
has not yet run. -/
inductive FsJob
  | readJob (o : Order)
  | writeJob (o : Order)
  | deleteJob (o : Order)
  | createJob (o : Order)
  | appendJob (o : Order)
deriving Repr, DecidableEq

/-- A microtask: the only `.then` continuation in the scheduler is the
lock release `() => this.lock.delete(order.path)` of lines 149-171. -/
inductive MTask
  | lockDel (p : String)
deriving Repr, DecidableEq

/-- A `setTimeout` callback.
`retryExec`: the lock-contention retry of lines 133-136, which re-pushes
the removed order and re-runs `executeOrder`.
`retryRead`: the admission retry inside `read` (lines 50-52); via
`.then(resolve).catch(reject)` the inner read settles the same promise.
`retryBroken`: the admission-retry callback of `write`, `create` and
`delete` (lines 31-34, 72-74, 88-90): it calls `this.read(path)` (a fresh
promise nobody holds) and then evaluates the unbound identifier
`resolve`, raising an uncaught ReferenceError. -/
inductive TTask
  | retryExec (o : Order)
  | retryRead (p : String) (pid : Nat)
  | retryBroken (p : String)
deriving Repr, DecidableEq

/-- An `emitter.emit` call.  The private fs callbacks emit kind-tagged
success events carrying the order (and content for reads), but on failure
they emit the bare host error with no order attached (lines 187, 201,
215, 229, 243).  `errorOrderEv` is the tagged error of the unreachable
default switch case (line 174). -/
inductive Emitted
  | readEv (oid : Nat) (content : String)
  | writeEv (oid : Nat)
  | deleteEv (oid : Nat)
  | createEv (oid : Nat)
  | appendEv (oid : Nat)
  | errorEv (err : String)
  | errorOrderEv (oid : Nat) (err : String)
deriving Repr, DecidableEq

/-- The whole state: the FileHandler instance fields (`lock`, `emitter`
listeners and max-listener cap, `orderStack`, `timeout`), the modelled
filesystem, the event-loop queues, the settled promises, the log of
emitted events and of uncaught exceptions, and the id counters. -/
structure Machine where
  maxListeners : Nat
  timeoutField : Option Nat
  stack : List Order
  lock : List String
  fsys : List (String × String)
  readListeners : List ReadListener
  micro : List MTask
  timers : List (Option Nat × TTask)
  jobs : List FsJob
  settled : List (Nat × Except String String)
  events : List Emitted
  uncaught : List String
  nextOrderId : Nat
  nextPromiseId : Nat
deriving Repr, DecidableEq

set_option linter.unusedVariables false in
/-- The FileHandler constructor (lines 19-21) with an initial collaborator
filesystem.  Its body only calls `setMaxListeners(maxSyncWrites)`; the
declared field `timeout` (line 12) is never assigned, so it stays
undefined (`none`) whatever the `timeout` argument was. -/
def FileHandler.new (maxSyncWrites : Nat) (timeout : Nat)
    (fsys : List (String × String)) : Machine :=
  { maxListeners := maxSyncWrites
    timeoutField := none
    stack := []
    lock := []
    fsys := fsys
    readListeners := []
    micro := []
    timers := []
    jobs := []
    settled := []
    events := []
    uncaught := []
    nextOrderId := 0
    nextPromiseId := 0 }

/-- `emitter.listenerCount(name)`: only `read` listeners are ever
registered anywhere in the source (line 56), so every other event name,
including the undefined name that the no-argument call in `append`
(line 104) asks about, counts zero. -/
def listenerCount (m : Machine) (name : String) : Nat :=
  if name == "read" then m.readListeners.length else 0

/-- `Set.add` on the lock (line 145): idempotent insertion. -/
def lockAdd (p : String) (l : List String) : List String :=
  if l.contains p then l else p :: l

/-- Collaborator filesystem lookup. -/
def fsLookup (fsys : List (String × String)) (p : String) : Option String :=
  (fsys.find? (fun q => q.1 == p)).map (fun q => q.2)

/-- Collaborator filesystem update (overwrite or create). -/
def fsSet (fsys : List (String × String)) (p c : String) : List (String × String) :=
  if (fsys.find? (fun q => q.1 == p)).isSome then
    fsys.map (fun q => if q.1 == p then (p, c) else q)
  else fsys ++ [(p, c)]

/-- Collaborator filesystem removal. -/
def fsRemove (fsys : List (String × String)) (p : String) : List (String × String) :=
  fsys.filter (fun q => !(q.1 == p))

/-- Resolving a promise: the first resolution wins, later resolutions of
an already settled promise are no-ops. -/
def settleOnce (ps : List (Nat × Except String String)) (pid : Nat)
    (r : Except String String) : List (Nat × Except String String) :=
  if ps.any (fun q => q.1 == pid) then ps else ps ++ [(pid, r)]

/-- The settled value of a promise, if any. -/
def lookupSettled (pid : Nat) (ps : List (Nat × Except String String)) :
    Option (Except String String) :=
  (ps.find? (fun q => q.1 == pid)).map (fun q => q.2)

/-- Running the registered read listeners on one read event: each
listener whose captured order id matches the event resolves its promise
with the content (lines 56-60). -/
def deliverFold (oid : Nat) (c : String) (ls : List ReadListener)
    (ps : List (Nat × Except String String)) : List (Nat × Except String String) :=
  ls.foldl
    (fun ps l => if l.orderId == oid then settleOnce ps l.promiseId (Except.ok c) else ps)
    ps

/-- `emitter.emit('read', data)` (line 189): every registered read
listener runs; the one whose captured order id matches resolves its
promise with the content (lines 57-58).  No listener is removed. -/
def deliverRead (oid : Nat) (content : String) (m : Machine) : Machine :=
  { m with
    settled := deliverFold oid content m.readListeners m.settled
    events := m.events ++ [Emitted.readEv oid content] }

/-- The switch of `executeOrder` (lines 147-176), run after the lock was
added: each case synchronously issues the fs call (putting a job in
flight) and schedules the `.then` lock release as a microtask, because
the private async functions contain no await and so resolve as soon as
their body returns, not when the fs callback runs.  The default case
emits a tagged error and never releases the lock. -/
def dispatchOrder (o : Order) (m : Machine) : Machine :=
  if o.type == "read" then
    { m with jobs := m.jobs ++ [FsJob.readJob o], micro := m.micro ++ [MTask.lockDel o.path] }
  else if o.type == "write" then
    { m with jobs := m.jobs ++ [FsJob.writeJob o], micro := m.micro ++ [MTask.lockDel o.path] }
  else if o.type == "delete" then
    { m with jobs := m.jobs ++ [FsJob.deleteJob o], micro := m.micro ++ [MTask.lockDel o.path] }
  else if o.type == "create" then
    { m with jobs := m.jobs ++ [FsJob.createJob o], micro := m.micro ++ [MTask.lockDel o.path] }
  else if o.type == "append" then
    { m with jobs := m.jobs ++ [FsJob.appendJob o], micro := m.micro ++ [MTask.lockDel o.path] }
  else
    { m with events := m.events ++ [Emitted.errorOrderEv o.id "Unknown order type"] }

/-- `executeOrder(id)` (lines 127-178).  Line 129: if no order with this
id is in the stack, return.  Line 130: `getOrderById` finds the order and
removes it from the stack.  Line 132: if the path is locked, schedule a
timer (delay `this.timeout`) that re-pushes the order and retries.
Otherwise add the path to the lock and dispatch by type.  (The null check
of line 141 is unreachable after the line 129 check and is dropped.) -/
def executeOrder (id : Nat) (m : Machine) : Machine :=
  match m.stack.find? (fun o => o.id == id) with
  | none => m
  | some o =>
    if m.lock.contains o.path then
      { m with
        stack := removeFirst (fun x => x.id == id) m.stack
        timers := m.timers ++ [(m.timeoutField, TTask.retryExec o)] }
    else
      dispatchOrder o
        { m with
          stack := removeFirst (fun x => x.id == id) m.stack
          lock := lockAdd o.path m.lock }

/-- `orderExecution(order)` (lines 118-121): push then execute. -/
def orderExecution (o : Order) (m : Machine) : Machine :=
  executeOrder o.id { m with stack := m.stack ++ [o] }

/-- `emitter.on('read', listener)` (line 56): append the filtering
listener for the given order id and promise. -/
def addListener (oid pid : Nat) (m : Machine) : Machine :=
  { m with readListeners := m.readListeners ++ [{ orderId := oid, promiseId := pid }] }

/-- The admitted branch of `read` (lines 54-60): construct the read order
(the constructor check passes for the literal kind, and the id counter
advances), run `orderExecution`, then register the filtering listener. -/
def readAdmit (path : String) (pid : Nat) (m : Machine) : Machine :=
  addListener m.nextOrderId pid
    (orderExecution { id := m.nextOrderId, path := path, type := "read", data := "" }
      { m with nextOrderId := m.nextOrderId + 1 })

/-- The body of `read(path)` (lines 46-63) for a promise `pid`.  At the
listener cap, schedule a retry that chains the same promise (lines
49-52).  Otherwise run the admitted branch. -/
def readCall (path : String) (pid : Nat) (m : Machine) : Machine :=
  if m.readListeners.length == m.maxListeners then
    { m with timers := m.timers ++ [(m.timeoutField, TTask.retryRead path pid)] }
  else
    readAdmit path pid m

/-- The body of `write(path, content)` (lines 29-39).  The admission
check compares `listenerCount('write')` (always zero, nothing registers
write listeners) to the cap; when equal it schedules the broken retry
callback (which will call `read`, not `write`).  Otherwise construct a
write order and run `orderExecution`.  The returned promise of the async
method resolves immediately with undefined either way. -/
def writeCall (path content : String) (m : Machine) : Machine :=
  if listenerCount m "write" == m.maxListeners then
    { m with timers := m.timers ++ [(m.timeoutField, TTask.retryBroken path)] }
  else
    orderExecution { id := m.nextOrderId, path := path, type := "write", data := content }
      { m with nextOrderId := m.nextOrderId + 1 }

/-- The body of `create(path)` (lines 70-79).  Below the cap, the else
branch evaluates `new Order(path, 'create', content)` where `content` is
not in scope (line 76): the method rejects with a ReferenceError and
nothing is pushed or dispatched.  At the cap (only possible with
`maxListeners = 0`), it schedules the broken retry callback. -/
def createCall (path : String) (m : Machine) : Machine × Except String Unit :=
  if listenerCount m "create" == m.maxListeners then
    ({ m with timers := m.timers ++ [(m.timeoutField, TTask.retryBroken path)] }, Except.ok ())
  else
    (m, Except.error "ReferenceError: content is not defined")

/-- The body of `delete(path)` (lines 86-95): same shape as `create`,
including the out-of-scope `content` at line 92. -/
def deleteCall (path : String) (m : Machine) : Machine × Except String Unit :=
  if listenerCount m "delete" == m.maxListeners then
    ({ m with timers := m.timers ++ [(m.timeoutField, TTask.retryBroken path)] }, Except.ok ())
  else
    (m, Except.error "ReferenceError: content is not defined")

/-- The body of `append(path, content)` (lines 103-112).  Its admission
check calls `listenerCount()` with no event name (line 104), which counts
the listeners of the undefined event name: zero. -/
def appendCall (path content : String) (m : Machine) : Machine :=
  if (0 : Nat) == m.maxListeners then
    { m with timers := m.timers ++ [(m.timeoutField, TTask.retryBroken path)] }
  else
    orderExecution { id := m.nextOrderId, path := path, type := "append", data := content }
      { m with nextOrderId := m.nextOrderId + 1 }

/-- Completion callback of an fs call (lines 184-248).  On error the bare
host error is emitted on the error channel, which has no listeners; on
success the kind-tagged event is emitted.  Reads read the content at
completion time; writes and creates apply `fs.writeFile`; appends apply
`fs.appendFile` (creating the file when absent); deletes apply
`fs.unlink`, failing when the path is absent.  The model labels host
errors with the ENOENT code. -/
def completeJob (j : FsJob) (m : Machine) : Machine :=
  match j with
  | FsJob.readJob o =>
    match fsLookup m.fsys o.path with
    | some c => deliverRead o.id c m
    | none => { m with events := m.events ++ [Emitted.errorEv ("ENOENT: " ++ o.path)] }
  | FsJob.writeJob o =>
    { m with fsys := fsSet m.fsys o.path o.data, events := m.events ++ [Emitted.writeEv o.id] }
  | FsJob.deleteJob o =>
    match fsLookup m.fsys o.path with
    | some _ =>
      { m with fsys := fsRemove m.fsys o.path, events := m.events ++ [Emitted.deleteEv o.id] }
    | none => { m with events := m.events ++ [Emitted.errorEv ("ENOENT: " ++ o.path)] }
  | FsJob.createJob o =>
    { m with fsys := fsSet m.fsys o.path o.data, events := m.events ++ [Emitted.createEv o.id] }
  | FsJob.appendJob o =>
    { m with
      fsys := fsSet m.fsys o.path (((fsLookup m.fsys o.path).getD "") ++ o.data)
      events := m.events ++ [Emitted.appendEv o.id] }

/-- An exception raised inside a timer callback with no handler: recorded
as an uncaught error. -/
def addUncaught (s : String) (m : Machine) : Machine :=
  { m with uncaught := m.uncaught ++ [s] }

/-- Firing a timer callback.  Lock-contention retry: re-push the order
and re-run `executeOrder` (lines 133-136).  Read admission retry: rerun
`read(path)` chained onto the same promise (lines 50-52).  The broken
retry of `write`, `create`, `delete`: `this.read(path)` runs with a fresh
promise, then evaluating the unbound `resolve` raises an uncaught
ReferenceError in the timer callback (lines 31-34, 72-74, 88-90). -/
def runTimer (t : TTask) (m : Machine) : Machine :=
  match t with
  | TTask.retryExec o => executeOrder o.id { m with stack := m.stack ++ [o] }
  | TTask.retryRead p pid => readCall p pid m
  | TTask.retryBroken p =>
    addUncaught "ReferenceError: resolve is not defined"
      (readCall p m.nextPromiseId { m with nextPromiseId := m.nextPromiseId + 1 })

/-- One microtask: the lock-release continuation deletes the path from
the lock set. -/
def applyMicro (l : List String) : MTask → List String
  | MTask.lockDel p => l.filter (fun q => !(q == p))

/-- Drain the microtask queue (none of its tasks spawns another). -/
def runMicro (m : Machine) : Machine :=
  { m with lock := m.micro.foldl applyMicro m.lock, micro := [] }

/-- A scheduling choice: run the i-th pending timer callback or the i-th
in-flight fs completion. -/
inductive Choice
  | timer (i : Nat)
  | job (i : Nat)
deriving Repr, DecidableEq

/-- Run one macrotask chosen by the schedule (out-of-range choices are
no-ops). -/
def runChoice (c : Choice) (m : Machine) : Machine :=
  match c with
  | Choice.timer i =>
    match m.timers.get? i with
    | none => m
    | some t => runTimer t.2 { m with timers := m.timers.eraseIdx i }
  | Choice.job i =>
    match m.jobs.get? i with
    | none => m
    | some j => completeJob j { m with jobs := m.jobs.eraseIdx i }

/-- One event-loop turn: a macrotask followed by a full microtask drain. -/
def step (c : Choice) (m : Machine) : Machine :=
  runMicro (runChoice c m)

/-- Run a whole schedule. -/
def runSched (m : Machine) : List Choice → Machine
  | [] => m
  | c :: cs => runSched (step c m) cs

/-- The shared else-branch of the public methods: construct an Order with
the given kind and, when construction succeeds, push and execute it via
`orderExecution` (lines 36-37, 54-55, 109-110); a constructor throw
propagates out of the async body and nothing is pushed. -/
def submitWithKind (path kind data : String) (m : Machine) :
    Machine × Except String Unit :=
  match Order.make path kind data m.nextOrderId with
  | Except.error e => (m, Except.error e)
  | Except.ok o =>
    (orderExecution o { m with nextOrderId := m.nextOrderId + 1 }, Except.ok ())

/-- Number of registered read listeners, i.e. `listenerCount('read')`. -/
def countR (m : Machine) : Nat := m.readListeners.length

/-- A promise id that no registered read listener resolves and that is
not already settled.  A fresh promise id of a read admitted while the
listener cap is reached has this property. -/
def pidUntracked (pid : Nat) (m : Machine) : Prop :=
  (∀ l ∈ m.readListeners, l.promiseId ≠ pid) ∧ (∀ q ∈ m.settled, q.1 ≠ pid)

/-- Scenario: a default handler over a filesystem holding path a; two
writes against path a are submitted in one synchronous block and the
microtasks drain.  The first write dispatched (its fs call is in flight
and its lock release already ran); the second hit the held lock and its
retry timer is pending. -/
def twoWritesSamePath : Machine :=
  runMicro (writeCall "a" "2" (writeCall "a" "1" (FileHandler.new 1000 10 [("a", "0")])))

/-- Scenario continued: the retry timer fires before the first write
completes at the collaborator. -/
def twoWritesAfterRetry : Machine :=
  step (Choice.timer 0) twoWritesSamePath

/-- Scenario: a read of a path absent from the collaborator filesystem,
run to completion of its fs call. -/
def readMissing : Machine :=
  step (Choice.job 0) (runMicro (readCall "b" 0 (FileHandler.new 1000 10 [])))

/-- Scenario: a read of an existing path, run to completion. -/
def readHit : Machine :=
  step (Choice.job 0) (runMicro (readCall "f" 0 (FileHandler.new 1000 10 [("f", "x")])))

/-- Scenario: a write of hello to path f, run to completion. -/
def writeHello : Machine :=
  step (Choice.job 0) (runMicro (writeCall "f" "hello" (FileHandler.new 1000 10 [])))

/-- Scenario continued: a read of path f after the write completed, run
to completion. -/
def writeThenRead : Machine :=
  step (Choice.job 0) (runMicro (readCall "f" 0 writeHello))

/-- Scenario: a handler constructed with maxSyncWrites zero, so the
write admission check fires (listener count zero equals the cap), and
the blocked write. -/
def writeAtCap : Machine :=
  writeCall "a" "x" (FileHandler.new 0 10 [])

/-- Scenario continued: the blocked write retry timer fires. -/
def writeAtCapRetried : Machine :=
  step (Choice.timer 0) writeAtCap

/-- A concrete order and a machine whose stack holds it while its path is
already locked. -/
def lockedOrder : Order :=
  { id := 5, path := "p", type := "write", data := "w" }

/-- Machine for the blocked-dispatch scenario. -/
def lockedMachine : Machine :=
  { FileHandler.new 1000 10 [] with stack := [lockedOrder], lock := ["p"] }

/-- A concrete registered listener: order id 3, promise 7. -/
def wListener : ReadListener := { orderId := 3, promiseId := 7 }

/-- A machine with exactly that one listener registered. -/
def wMachine : Machine :=
  { FileHandler.new 1000 10 [] with readListeners := [wListener] }

/-- The validity check accepts exactly the five operation kinds. -/
theorem validType_iff (t : String) :
    validType t = true ↔ t ∈ ["read", "write", "delete", "create", "append"] := by
  simp only [validType, Bool.or_eq_true, beq_iff_eq, List.mem_cons, List.not_mem_nil, or_false]
  tauto

/-- Unfolding the listener fold one listener at a time. -/
theorem deliverFold_cons (oid : Nat) (c : String) (a : ReadListener)
    (as : List ReadListener) (ps : List (Nat × Except String String)) :
    deliverFold oid c (a :: as) ps =
      deliverFold oid c as
        (if a.orderId == oid then settleOnce ps a.promiseId (Except.ok c) else ps) := rfl

/-- A promise settled before an append stays settled with the same value. -/
theorem lookupSettled_append_left (ps qs : List (Nat × Except String String))
    (pid : Nat) (v : Except String String) (h : lookupSettled pid ps = some v) :
    lookupSettled pid (ps ++ qs) = some v := by
  unfold lookupSettled at h ⊢
  rw [List.find?_append]
  cases hf : ps.find? (fun q => q.1 == pid) with
  | none => rw [hf] at h; simp at h
  | some q => rw [hf] at h; simpa using h

/-- Resolving some promise never changes an already settled promise. -/
theorem lookupSettled_settleOnce_some (ps : List (Nat × Except String String))
    (pid pid' : Nat) (r v : Except String String)
    (h : lookupSettled pid ps = some v) :
    lookupSettled pid (settleOnce ps pid' r) = some v := by
  unfold settleOnce
  split
  · exact h
  · exact lookupSettled_append_left ps [(pid', r)] pid v h

/-- Resolving a different promise leaves an unsettled promise unsettled. -/
theorem lookupSettled_settleOnce_none (ps : List (Nat × Except String String))
    (pid pid' : Nat) (r : Except String String) (hne : pid' ≠ pid)
    (h : lookupSettled pid ps = none) :
    lookupSettled pid (settleOnce ps pid' r) = none := by
  unfold settleOnce
  split
  · exact h
  · unfold lookupSettled at h ⊢
    rw [List.find?_append]
    cases hf : ps.find? (fun q => q.1 == pid) with
    | some q => rw [hf] at h; simp at h
    | none =>
      have h1 : (((pid', r) : Nat × Except String String).1 == pid) = false := by
        simp [hne]
      simp [hf, List.find?_cons, h1]

/-- Resolving an unsettled promise settles it with the given value. -/
theorem lookupSettled_settleOnce_self (ps : List (Nat × Except String String))
    (pid : Nat) (r : Except String String) (h : lookupSettled pid ps = none) :
    lookupSettled pid (settleOnce ps pid r) = some r := by
  have hf : ps.find? (fun q => q.1 == pid) = none := by
    unfold lookupSettled at h
    cases hq : ps.find? (fun q => q.1 == pid) with
    | none => rfl
    | some q => rw [hq] at h; simp at h
  have ha : ps.any (fun q => q.1 == pid) = false := by
    rw [Bool.eq_false_iff]
    intro hx
    obtain ⟨x, hx1, hx2⟩ := List.any_eq_true.mp hx
    exact (List.find?_eq_none.mp hf x hx1) hx2
  unfold settleOnce
  rw [ha]
  simp [lookupSettled, List.find?_append, hf, List.find?_cons]

/-- Running the listeners of one read event never changes an already
settled promise. -/
theorem deliverFold_some (oid : Nat) (c : String) :
    ∀ (ls : List ReadListener) (ps : List (Nat × Except String String))
      (pid : Nat) (v : Except String String),
      lookupSettled pid ps = some v →
      lookupSettled pid (deliverFold oid c ls ps) = some v := by
  intro ls
  induction ls with
  | nil => intro ps pid v h; exact h
  | cons a as ih =>
    intro ps pid v h
    rw [deliverFold_cons]
    refine ih _ pid v ?_
    split
    · exact lookupSettled_settleOnce_some ps pid a.promiseId _ v h
    · exact h

/-- Running the listeners of one read event leaves a promise unsettled
when no listener resolves it. -/
theorem deliverFold_none (oid : Nat) (c : String) :
    ∀ (ls : List ReadListener) (ps : List (Nat × Except String String)) (pid : Nat),
      (∀ l ∈ ls, l.promiseId ≠ pid) →
      lookupSettled pid ps = none →
      lookupSettled pid (deliverFold oid c ls ps) = none := by
  intro ls
  induction ls with
  | nil => intro ps pid _ h; exact h
  | cons a as ih =>
    intro ps pid hl h
    rw [deliverFold_cons]
    refine ih _ pid (fun l hm => hl l (List.mem_cons_of_mem a hm)) ?_
    split
    · exact lookupSettled_settleOnce_none ps pid a.promiseId _
        (hl a (List.mem_cons_self a as)) h
    · exact h

/-- Running the listeners of one read event settles the promise of a
matching listener with the content. -/
theorem deliverFold_hit (oid : Nat) (c : String) :
    ∀ (ls : List ReadListener) (ps : List (Nat × Except String String)) (pid : Nat),
      (∃ l ∈ ls, l.orderId = oid ∧ l.promiseId = pid) →
      lookupSettled pid ps = none →
      lookupSettled pid (deliverFold oid c ls ps) = some (Except.ok c) := by
  intro ls
  induction ls with
  | nil => intro ps pid hex _; simp at hex
  | cons a as ih =>
    intro ps pid hex hnone
    rw [deliverFold_cons]
    by_cases hmatch : a.orderId = oid ∧ a.promiseId = pid
    · have hcond : (a.orderId == oid) = true := beq_iff_eq.mpr hmatch.1
      rw [hcond]
      simp only [if_true]
      rw [hmatch.2]
      exact deliverFold_some oid c as _ pid _
        (lookupSettled_settleOnce_self ps pid (Except.ok c) hnone)
    · obtain ⟨l, hlm, hl1, hl2⟩ := hex
      rcases List.mem_cons.mp hlm with rfl | hmem
      · exact absurd ⟨hl1, hl2⟩ hmatch
      · refine ih _ pid ⟨l, hmem, hl1, hl2⟩ ?_
        split
        · rename_i hc
          have hne : a.promiseId ≠ pid := fun he => hmatch ⟨beq_iff_eq.mp hc, he⟩
          exact lookupSettled_settleOnce_none ps pid a.promiseId _ hne hnone
        · exact hnone

/-- Every entry of a resolved promise list was there before or is the
newly resolved promise. -/
theorem settleOnce_mem (ps : List (Nat × Except String String)) (pid : Nat)
    (r : Except String String) (q : Nat × Except String String)
    (h : q ∈ settleOnce ps pid r) : q ∈ ps ∨ q = (pid, r) := by
  unfold settleOnce at h
  split at h
  · exact Or.inl h
  · rcases List.mem_append.mp h with h1 | h2
    · exact Or.inl h1
    · simp at h2; exact Or.inr h2

/-- Every entry settled by one read event belongs to a registered
listener or was settled before. -/
theorem deliverFold_mem (oid : Nat) (c : String) :
    ∀ (ls : List ReadListener) (ps : List (Nat × Except String String))
      (q : Nat × Except String String), q ∈ deliverFold oid c ls ps →
      q ∈ ps ∨ ∃ l ∈ ls, q.1 = l.promiseId := by
  intro ls
  induction ls with
  | nil => intro ps q h; exact Or.inl h
  | cons a as ih =>
    intro ps q h
    rw [deliverFold_cons] at h
    rcases ih _ q h with h1 | ⟨l, hm, hq⟩
    · revert h1
      split
      · intro h1
        rcases settleOnce_mem ps a.promiseId _ q h1 with h2 | h2
        · exact Or.inl h2
        · exact Or.inr ⟨a, List.mem_cons_self a as, by rw [h2]⟩
      · intro h1; exact Or.inl h1
    · exact Or.inr ⟨l, List.mem_cons_of_mem a hm, hq⟩

/-- Dispatch touches only the queues, the lock, the stack and the event
log: listeners, settled promises and the listener cap are untouched. -/
theorem dispatchOrder_frame (o : Order) (m : Machine) :
    (dispatchOrder o m).readListeners = m.readListeners ∧
    (dispatchOrder o m).settled = m.settled ∧
    (dispatchOrder o m).maxListeners = m.maxListeners := by
  unfold dispatchOrder
  split_ifs <;> exact ⟨rfl, rfl, rfl⟩

/-- An execution attempt never touches listeners, settled promises or
the listener cap. -/
theorem executeOrder_frame (id : Nat) (m : Machine) :
    (executeOrder id m).readListeners = m.readListeners ∧
    (executeOrder id m).settled = m.settled ∧
    (executeOrder id m).maxListeners = m.maxListeners := by
  unfold executeOrder
  cases hf : m.stack.find? (fun o => o.id == id) with
  | none => exact ⟨rfl, rfl, rfl⟩
  | some o =>
    dsimp only
    split_ifs with h
    · exact ⟨rfl, rfl, rfl⟩
    · exact dispatchOrder_frame o _

/-- Push-and-execute never touches listeners, settled promises or the
listener cap. -/
theorem orderExecution_frame (o : Order) (m : Machine) :
    (orderExecution o m).readListeners = m.readListeners ∧
    (orderExecution o m).settled = m.settled ∧
    (orderExecution o m).maxListeners = m.maxListeners := by
  unfold orderExecution
  exact executeOrder_frame o.id _

/-- Completing an fs job never removes a listener or lowers the cap. -/
theorem completeJob_frame (j : FsJob) (m : Machine) :
    (completeJob j m).readListeners = m.readListeners ∧
    (completeJob j m).maxListeners = m.maxListeners := by
  cases j with
  | readJob o =>
    rcases hf : fsLookup m.fsys o.path with _ | c <;>
      simp [completeJob, hf, deliverRead]
  | writeJob o => simp [completeJob]
  | deleteJob o =>
    rcases hf : fsLookup m.fsys o.path with _ | c <;>
      simp [completeJob, hf]
  | createJob o => simp [completeJob]
  | appendJob o => simp [completeJob]

/-- Every promise settled by completing an fs job was settled before or
belongs to a registered listener. -/
theorem completeJob_settled_mem (j : FsJob) (m : Machine)
    (q : Nat × Except String String) (h : q ∈ (completeJob j m).settled) :
    q ∈ m.settled ∨ ∃ l ∈ m.readListeners, q.1 = l.promiseId := by
  cases j with
  | readJob o =>
    rcases hf : fsLookup m.fsys o.path with _ | c
    · simp only [completeJob, hf] at h
      exact Or.inl h
    · simp only [completeJob, hf, deliverRead] at h
      exact deliverFold_mem o.id c m.readListeners m.settled q h
  | writeJob o => simp only [completeJob] at h; exact Or.inl h
  | deleteJob o =>
    rcases hf : fsLookup m.fsys o.path with _ | c <;>
      simp only [completeJob, hf] at h <;>
      exact Or.inl h
  | createJob o => simp only [completeJob] at h; exact Or.inl h
  | appendJob o => simp only [completeJob] at h; exact Or.inl h

/-- At the listener cap, a read call only schedules its retry timer. -/
theorem readCall_at_cap (p : String) (q : Nat) (m : Machine)
    (h : countR m = m.maxListeners) :
    readCall p q m =
      { m with timers := m.timers ++ [(m.timeoutField, TTask.retryRead p q)] } := by
  have h2 : (m.readListeners.length == m.maxListeners) = true := beq_iff_eq.mpr h
  unfold readCall
  rw [if_pos h2]

/-- A read call never removes a listener. -/
theorem countR_readCall (p : String) (q : Nat) (m : Machine) :
    countR m ≤ countR (readCall p q m) := by
  unfold readCall
  split_ifs with h
  · exact le_refl _
  · unfold readAdmit addListener countR
    rw [List.length_append, (orderExecution_frame _ _).1]
    simp

/-- Firing a timer never removes a listener. -/
theorem countR_runTimer (t : TTask) (m : Machine) :
    countR m ≤ countR (runTimer t m) := by
  cases t with
  | retryExec o =>
    unfold runTimer countR
    dsimp only
    rw [(executeOrder_frame o.id { m with stack := m.stack ++ [o] }).1]
  | retryRead p q => exact countR_readCall p q m
  | retryBroken p =>
    exact countR_readCall p m.nextPromiseId { m with nextPromiseId := m.nextPromiseId + 1 }

/-- Draining microtasks does not touch the listeners. -/
theorem countR_runMicro (m : Machine) : countR (runMicro m) = countR m := rfl

/-- Running one macrotask never removes a listener. -/
theorem countR_runChoice (c : Choice) (m : Machine) :
    countR m ≤ countR (runChoice c m) := by
  cases c with
  | timer i =>
    unfold runChoice
    dsimp only
    cases ht : m.timers.get? i with
    | none => exact le_refl _
    | some t => exact countR_runTimer t.2 { m with timers := m.timers.eraseIdx i }
  | job i =>
    unfold runChoice
    dsimp only
    cases hj : m.jobs.get? i with
    | none => exact le_refl _
    | some j =>
      unfold countR
      rw [(completeJob_frame j { m with jobs := m.jobs.eraseIdx i }).1]

/-- One event-loop turn never removes a listener. -/
theorem countR_step (c : Choice) (m : Machine) : countR m ≤ countR (step c m) := by
  unfold step
  rw [countR_runMicro]
  exact countR_runChoice c m

/-- The starvation invariant for a promise issued at the listener cap:
the listener list stays at the cap, no registered listener resolves the
promise, and the promise is not settled. -/
def invState (pid : Nat) (m : Machine) : Prop :=
  countR m = m.maxListeners ∧ pidUntracked pid m

/-- Firing any timer preserves the starvation invariant. -/
theorem invState_runTimer (pid : Nat) (t : TTask) (m : Machine)
    (h : invState pid m) : invState pid (runTimer t m) := by
  cases t with
  | retryExec o =>
    have hf := executeOrder_frame o.id { m with stack := m.stack ++ [o] }
    refine ⟨?_, ?_, ?_⟩
    · unfold runTimer countR
      dsimp only
      rw [hf.1, hf.2.2]
      exact h.1
    · intro l hm
      unfold runTimer at hm
      dsimp only at hm
      rw [hf.1] at hm
      exact h.2.1 l hm
    · intro q hm
      unfold runTimer at hm
      dsimp only at hm
      rw [hf.2.1] at hm
      exact h.2.2 q hm
  | retryRead p q =>
    unfold runTimer
    dsimp only
    rw [readCall_at_cap p q m h.1]
    exact ⟨h.1, h.2⟩
  | retryBroken p =>
    unfold runTimer
    dsimp only
    rw [readCall_at_cap p m.nextPromiseId
      { m with nextPromiseId := m.nextPromiseId + 1 } h.1]
    exact ⟨h.1, h.2⟩

/-- Draining microtasks preserves the starvation invariant. -/
theorem invState_runMicro (pid : Nat) (m : Machine) (h : invState pid m) :
    invState pid (runMicro m) := h

/-- Running one macrotask preserves the starvation invariant. -/
theorem invState_runChoice (pid : Nat) (c : Choice) (m : Machine)
    (h : invState pid m) : invState pid (runChoice c m) := by
  cases c with
  | timer i =>
    unfold runChoice
    dsimp only
    cases ht : m.timers.get? i with
    | none => exact h
    | some t => exact invState_runTimer pid t.2 { m with timers := m.timers.eraseIdx i } h
  | job i =>
    unfold runChoice
    dsimp only
    cases hj : m.jobs.get? i with
    | none => exact h
    | some j =>
      have hf := completeJob_frame j { m with jobs := m.jobs.eraseIdx i }
      refine ⟨?_, ?_, ?_⟩
      · unfold countR
        rw [hf.1, hf.2]
        exact h.1
      · intro l hm
        rw [hf.1] at hm
        exact h.2.1 l hm
      · intro q hm
        rcases completeJob_settled_mem j _ q hm with h1 | ⟨l, hlm, hq⟩
        · exact h.2.2 q h1
        · rw [hq]; exact h.2.1 l hlm

/-- One event-loop turn preserves the starvation invariant. -/
theorem invState_step (pid : Nat) (c : Choice) (m : Machine)
    (h : invState pid m) : invState pid (step c m) :=
  invState_runMicro pid _ (invState_runChoice pid c m h)

/-- Any schedule preserves the starvation invariant. -/
theorem invState_runSched (pid : Nat) :
    ∀ (sched : List Choice) (m : Machine),
      invState pid m → invState pid (runSched m sched) := by
  intro sched
  induction sched with
  | nil => intro m h; exact h
  | cons c cs ih => intro m h; exact ih _ (invState_step pid c m h)

/-- An untracked promise has no settled value. -/
theorem lookupSettled_eq_none_of_untracked (pid : Nat) (m : Machine)
    (h : pidUntracked pid m) : lookupSettled pid m.settled = none := by
  have hf : m.settled.find? (fun q => q.1 == pid) = none :=
    List.find?_eq_none.mpr (fun q hq hbeq => h.2 q hq (beq_iff_eq.mp hbeq))
  unfold lookupSettled
  rw [hf]
  rfl

/-- C1: the claim says two submissions against the same path never have
their filesystem dispatches in flight simultaneously, the path lock being
held through asynchronous completion.  The code violates this: the lock
release is a `.then` continuation of a private async function that
resolves as soon as the fs call is issued, so after one microtask drain
the lock is already empty while the first write is still in flight
(first two conjuncts), and once the lock-contention retry timer of the
second write fires (before the first write completes at the collaborator)
both same-path writes are dispatched and in flight at once, with the lock
again empty (last two conjuncts). -/
theorem C1_same_path_dispatch_overlap :
    twoWritesSamePath.jobs =
      [FsJob.writeJob { id := 0, path := "a", type := "write", data := "1" }] ∧
    twoWritesSamePath.lock = [] ∧
    twoWritesAfterRetry.jobs =
      [FsJob.writeJob { id := 0, path := "a", type := "write", data := "1" },
       FsJob.writeJob { id := 1, path := "a", type := "write", data := "2" }] ∧
    twoWritesAfterRetry.lock = [] := by
  exact ⟨rfl, rfl, rfl, rfl⟩

/-- C2: the claim says a failed collaborator call publishes an error
event carrying the I/O error that is surfaced one-to-one to the caller of
that Order, settling its pending result.  In the code the failure branch
emits the bare host error with no order id, nothing ever subscribes to
the error channel, and the read promise stays unsettled: after the failed
read of a missing path the only event is the untagged error, the settled
list is empty, and no job or timer remains that could ever settle it. -/
theorem C2_error_not_routed_to_caller :
    readMissing.events = [Emitted.errorEv "ENOENT: b"] ∧
    readMissing.settled = [] ∧
    readMissing.jobs = [] ∧
    readMissing.timers = [] ∧
    readMissing.readListeners = [{ orderId := 0, promiseId := 0 }] := by
  exact ⟨rfl, rfl, rfl, rfl, rfl⟩

/-- C3: the claim says the admission check counts in-flight operations of
the requested kind and, at capacity, retries the same submission.  In the
code the write check counts write event listeners, which nothing ever
registers (first conjunct: the count is zero for every machine state,
whatever is in flight); with the cap reached the scheduled retry is the
broken callback, nothing is enqueued (next three conjuncts); and when it
fires it submits a read, not the original write, leaving a read retry
timer and an uncaught ReferenceError from the unbound resolve, with still
no write order anywhere (last conjuncts). -/
theorem C3_admission_retry_resubmits_read :
    (∀ m : Machine, listenerCount m "write" = 0) ∧
    writeAtCap.timers = [(none, TTask.retryBroken "a")] ∧
    writeAtCap.stack = [] ∧
    writeAtCap.jobs = [] ∧
    writeAtCapRetried.uncaught = ["ReferenceError: resolve is not defined"] ∧
    writeAtCapRetried.timers = [(none, TTask.retryRead "a" 0)] ∧
    writeAtCapRetried.stack = [] ∧
    writeAtCapRetried.jobs = [] := by
  refine ⟨fun m => rfl, rfl, rfl, rfl, rfl, rfl, rfl, rfl⟩

/-- C4: the claim conjoins the write-read round trip with the create-read
round trip.  The write half holds in the model (first conjunct: after
write of hello to f completes and a read of f completes, the read promise
settled with exactly hello).  The create half fails: the body of `create`
references the undefined identifier `content`, so `create` rejects with a
ReferenceError before constructing any Order, and the machine is
untouched (second conjunct, at the concrete input of the claim). -/
theorem C4_write_read_roundtrip_but_create_broken :
    lookupSettled 0 writeThenRead.settled = some (Except.ok "hello") ∧
    createCall "f" (FileHandler.new 1000 10 []) =
      (FileHandler.new 1000 10 [],
       Except.error "ReferenceError: content is not defined") := by
  exact ⟨rfl, rfl⟩

/-- C9: the claim says the default retry delay is 10 milliseconds and
every retry is scheduled after exactly that delay.  The constructor
stores only the listener cap; the declared field `timeout` is never
assigned, so with the default arguments 1000 and 10 the field is
undefined (`none`) and the retry timer scheduled for a blocked same-path
write carries an undefined delay, not 10. -/
theorem C9_retry_delay_field_undefined :
    (FileHandler.new 1000 10 []).maxListeners = 1000 ∧
    (FileHandler.new 1000 10 []).timeoutField = none ∧
    twoWritesSamePath.timers =
      [((none : Option Nat),
        TTask.retryExec { id := 1, path := "a", type := "write", data := "2" })] := by
  exact ⟨rfl, rfl, rfl⟩

/-- C6 counterexample: the claim says a per-id subscription is consumed,
removed from the bus, on the first matching notification, and that the
subscribed caller is notified exactly once with either the result or an
error.  Concretely: after the matching read notification settled promise
zero with the content, the listener is still registered (first two
conjuncts); and a failed read never notifies its subscriber at all, with
nothing pending that could (last conjuncts). -/
theorem C6_counterexample_listener_persists :
    lookupSettled 0 readHit.settled = some (Except.ok "x") ∧
    readHit.readListeners = [{ orderId := 0, promiseId := 0 }] ∧
    readMissing.settled = [] ∧
    readMissing.jobs = [] ∧
    readMissing.timers = [] := by
  exact ⟨rfl, rfl, rfl, rfl, rfl⟩

/-- C8 counterexample: the claim says a dispatch attempt looks up its
Order without removing it and that a lock-blocked attempt leaves the
registry unchanged.  Concretely: on a machine whose stack holds one order
whose path is locked, the dispatch attempt leaves an empty stack (the
lookup removed the order) and parks the order in the retry timer. -/
theorem C8_counterexample_registry_changed :
    lockedMachine.stack = [lockedOrder] ∧
    (executeOrder 5 lockedMachine).stack = [] ∧
    (executeOrder 5 lockedMachine).timers = [(none, TTask.retryExec lockedOrder)] := by
  exact ⟨rfl, rfl, rfl⟩

/-- C5: the claim says `create` and `delete` eventually acknowledge and
can only fail with an I/O error from the collaborator.  On any handler
whose listener cap is nonzero (the default is 1000), both bodies take the
else branch, which evaluates the out-of-scope identifier `content` while
constructing the Order: the call rejects with a ReferenceError, no Order
is built, nothing is dispatched, and the collaborator is never reached —
a non-I/O failure on every valid path argument. -/
theorem C5_create_delete_reference_error (m : Machine) (path : String)
    (h : m.maxListeners ≠ 0) :
    createCall path m = (m, Except.error "ReferenceError: content is not defined") ∧
    deleteCall path m = (m, Except.error "ReferenceError: content is not defined") := by
  have h0 : ((0 : Nat) == m.maxListeners) = false := by
    cases hm : m.maxListeners with
    | zero => exact absurd hm h
    | succ k => rfl
  constructor
  · unfold createCall
    rw [show listenerCount m "create" = 0 from rfl, if_neg (by simp [h0])]
  · unfold deleteCall
    rw [show listenerCount m "delete" = 0 from rfl, if_neg (by simp [h0])]

/-- Witness for C5 at a default handler and the path of the spec
example. -/
theorem C5_create_delete_reference_error_witness :
    createCall "a.txt" (FileHandler.new 1000 10 []) =
      (FileHandler.new 1000 10 [], Except.error "ReferenceError: content is not defined") ∧
    deleteCall "a.txt" (FileHandler.new 1000 10 []) =
      (FileHandler.new 1000 10 [], Except.error "ReferenceError: content is not defined") :=
  C5_create_delete_reference_error (FileHandler.new 1000 10 []) "a.txt" (by decide)

/-- C6 amended: the caller subscribed on an Order id is notified at most
once — the first matching success notification settles its promise with
the result payload, and later notifications never change a settled value
— but the subscription is not consumed: the matching notification leaves
the listener list unchanged, and a failed read settles nobody and removes
no listener either. -/
theorem C6_amended_notify_once_listener_persists (m : Machine) (oid : Nat) (c : String) :
    (deliverRead oid c m).readListeners = m.readListeners ∧
    (∀ (pid : Nat) (v : Except String String), lookupSettled pid m.settled = some v →
      lookupSettled pid (deliverRead oid c m).settled = some v) ∧
    (∀ l ∈ m.readListeners, l.orderId = oid →
      lookupSettled l.promiseId m.settled = none →
      lookupSettled l.promiseId (deliverRead oid c m).settled = some (Except.ok c)) ∧
    (∀ o : Order, fsLookup m.fsys o.path = none →
      (completeJob (FsJob.readJob o) m).settled = m.settled ∧
      (completeJob (FsJob.readJob o) m).readListeners = m.readListeners) := by
  refine ⟨rfl, ?_, ?_, ?_⟩
  · intro pid v h
    exact deliverFold_some oid c m.readListeners m.settled pid v h
  · intro l hl h1 h2
    exact deliverFold_hit oid c m.readListeners m.settled l.promiseId ⟨l, hl, h1, rfl⟩ h2
  · intro o h
    refine ⟨?_, ?_⟩ <;> simp only [completeJob, h]

/-- Witness for the amended C6 at a machine with one listener for order
id 3 on promise 7: the matching notification settles promise 7 with the
content and the listener stays registered. -/
theorem C6_amended_witness :
    (deliverRead 3 "y" wMachine).readListeners = [wListener] ∧
    lookupSettled 7 (deliverRead 3 "y" wMachine).settled = some (Except.ok "y") := by
  have h := C6_amended_notify_once_listener_persists wMachine 3 "y"
  exact ⟨h.1, h.2.2.1 wListener (by decide) rfl rfl⟩

/-- C7: Order construction succeeds exactly for the five valid kinds; any
other kind string fails at construction with the invalid-kind error of
line 356, and a submission with such a kind leaves the machine — in
particular the pending registry — untouched, because the throw propagates
before `orderExecution` can push anything. -/
theorem C7_order_kind_validation (path kind data : String) (id : Nat) (m : Machine) :
    (kind ∈ ["read", "write", "delete", "create", "append"] →
      Order.make path kind data id =
        Except.ok { id := id, path := path, type := kind, data := data }) ∧
    (kind ∉ ["read", "write", "delete", "create", "append"] →
      Order.make path kind data id =
        Except.error "type must be read, write, delete, create or append" ∧
      (submitWithKind path kind data m).1 = m) := by
  constructor
  · intro hmem
    unfold Order.make
    rw [if_pos ((validType_iff kind).mpr hmem)]
  · intro hmem
    have hv : validType kind = false := by
      cases hb : validType kind with
      | false => rfl
      | true => exact absurd ((validType_iff kind).mp hb) hmem
    have he : ∀ i : Nat, Order.make path kind data i =
        Except.error "type must be read, write, delete, create or append" := by
      intro i
      unfold Order.make
      rw [if_neg (by simp [hv])]
    refine ⟨he id, ?_⟩
    unfold submitWithKind
    rw [he m.nextOrderId]

/-- Witness for C7: the kind read is accepted, the kind chmod is rejected
and a chmod submission leaves a fresh default handler unchanged. -/
theorem C7_order_kind_validation_witness :
    Order.make "p" "read" "" 0 =
      Except.ok { id := 0, path := "p", type := "read", data := "" } ∧
    Order.make "p" "chmod" "" 0 =
      Except.error "type must be read, write, delete, create or append" ∧
    (submitWithKind "p" "chmod" "" (FileHandler.new 1000 10 [])).1 =
      FileHandler.new 1000 10 [] := by
  have h1 := C7_order_kind_validation "p" "read" "" 0 (FileHandler.new 1000 10 [])
  have h2 := C7_order_kind_validation "p" "chmod" "" 0 (FileHandler.new 1000 10 [])
  exact ⟨h1.1 (by decide), (h2.2 (by decide)).1, (h2.2 (by decide)).2⟩

/-- C8 amended: a dispatch attempt whose id is absent is a silent no-op,
the machine unchanged; when the id is present the lookup removes the
Order from the registry, and if lock acquisition then fails the attempt
schedules a retry task carrying the removed Order — re-pushed into the
registry only when that timer fires — while the lock and the in-flight
jobs are unchanged and the Order is, during the wait, absent from the
registry. -/
theorem C8_amended_lookup_removes (m : Machine) (id : Nat) :
    (m.stack.find? (fun o => o.id == id) = none → executeOrder id m = m) ∧
    (∀ o : Order, m.stack.find? (fun x => x.id == id) = some o →
      m.lock.contains o.path = true →
      (executeOrder id m).stack = removeFirst (fun x => x.id == id) m.stack ∧
      (executeOrder id m).timers = m.timers ++ [(m.timeoutField, TTask.retryExec o)] ∧
      (executeOrder id m).lock = m.lock ∧
      (executeOrder id m).jobs = m.jobs ∧
      runTimer (TTask.retryExec o) (executeOrder id m) =
        executeOrder o.id
          { executeOrder id m with stack := (executeOrder id m).stack ++ [o] }) := by
  constructor
  · intro h
    unfold executeOrder
    rw [h]
  · intro o hf hl
    have he : executeOrder id m =
        { m with
          stack := removeFirst (fun x => x.id == id) m.stack
          timers := m.timers ++ [(m.timeoutField, TTask.retryExec o)] } := by
      unfold executeOrder
      rw [hf]
      dsimp only
      rw [if_pos hl]
    rw [he]
    exact ⟨rfl, rfl, rfl, rfl, rfl⟩

/-- Witness for the amended C8 at the blocked-dispatch scenario machine:
id 99 is absent (no-op) and the present id 5, whose path is locked, is
removed from the registry while the lock stays as it was. -/
theorem C8_amended_witness :
    executeOrder 99 lockedMachine = lockedMachine ∧
    (executeOrder 5 lockedMachine).stack =
      removeFirst (fun x => x.id == 5) lockedMachine.stack ∧
    (executeOrder 5 lockedMachine).lock = lockedMachine.lock := by
  have h1 := (C8_amended_lookup_removes lockedMachine 99).1 (by decide)
  have h2 := (C8_amended_lookup_removes lockedMachine 5).2 lockedOrder (by decide) (by decide)
  exact ⟨h1, h2.1, h2.2.2.1⟩

/-- C10: every admitted read registers a listener that nothing ever
removes — the read listener count never decreases across read calls and
event-loop turns — and once the count equals the configured cap, a read
call only reschedules itself: its promise is resolved by no listener and
stays unsettled after every schedule of timer firings and job
completions, so the caller waits forever. -/
theorem C10_read_listener_leak (m : Machine) (path : String) (pid : Nat)
    (hc : countR m = m.maxListeners) (hp : pidUntracked pid m) :
    (∀ (m2 : Machine) (c : Choice), countR m2 ≤ countR (step c m2)) ∧
    (∀ (m2 : Machine) (p : String) (q : Nat), countR m2 ≤ countR (readCall p q m2)) ∧
    readCall path pid m =
      { m with timers := m.timers ++ [(m.timeoutField, TTask.retryRead path pid)] } ∧
    (∀ sched : List Choice,
      lookupSettled pid (runSched (readCall path pid m) sched).settled = none) := by
  refine ⟨fun m2 c => countR_step c m2, fun m2 p q => countR_readCall p q m2,
    readCall_at_cap path pid m hc, fun sched => ?_⟩
  have h0 : invState pid (readCall path pid m) := by
    rw [readCall_at_cap path pid m hc]
    exact ⟨hc, hp⟩
  exact lookupSettled_eq_none_of_untracked pid _
    (invState_runSched pid sched (readCall path pid m) h0).2

/-- Witness for C10 at a handler whose cap is zero, hence already at the
ceiling: the read is deferred to a retry timer and its promise is still
unsettled after the retry fires twice. -/
theorem C10_read_listener_leak_witness :
    countR (FileHandler.new 0 10 []) = (FileHandler.new 0 10 []).maxListeners ∧
    readCall "f" 0 (FileHandler.new 0 10 []) =
      { FileHandler.new 0 10 [] with
        timers := [((none : Option Nat), TTask.retryRead "f" 0)] } ∧
    lookupSettled 0
      (runSched (readCall "f" 0 (FileHandler.new 0 10 []))
        [Choice.timer 0, Choice.timer 0]).settled = none := by
  have h := C10_read_listener_leak (FileHandler.new 0 10 []) "f" 0 rfl
    ⟨fun l hl => absurd hl (List.not_mem_nil l), fun q hq => absurd hq (List.not_mem_nil q)⟩
  exact ⟨rfl, h.2.2.1, h.2.2.2 [Choice.timer 0, Choice.timer 0]⟩

end FileUtils
